import Mathlib

/-
  Verification of the ai-video-summarizer backend (src/backend).

  Shallow embedding of the response-normalization protocol
  (ai_base_models.py), the summarization adapter (summarization_models.py),
  the clip-generation adapters (clip_generation_models.py), the legacy
  pipeline helpers (ai_jobs.py), the transcription polling loop
  (transcription_models.py, ai_jobs.py) and the orchestrator and status
  store (server.py).

  Clip timestamps (Python floats) are modelled as rationals; JSON number
  literals are kept in an exact symbolic mantissa/exponent form (JNum)
  with a rational semantics (JNum.toQ).  None of the claims under study
  depends on binary floating-point rounding.
-/

namespace AVSum

/-! ## JSON values and a model of Python json.loads -/

/-- A JSON number literal as scanned by json.loads: the signed integer
formed from all written digits, the number of fraction digits, and the
exponent.  The denoted value is mantissa times 10 to the (exp - fracLen)
power; see JNum.toQ.  Two spellings of the same value (such as 2.5 and
25e-1) are kept distinct; no claim compares numbers across spellings. -/
structure JNum where
  mantissa : Int
  fracLen : Nat
  exp : Int
deriving DecidableEq, Repr

/-- Rational value denoted by a JSON number literal. -/
def JNum.toQ (n : JNum) : ℚ :=
  if 0 ≤ n.exp then
    (n.mantissa : ℚ) * (10 : ℚ) ^ n.exp.toNat / (10 : ℚ) ^ n.fracLen
  else
    (n.mantissa : ℚ) / ((10 : ℚ) ^ n.fracLen * (10 : ℚ) ^ (-n.exp).toNat)

/-- A JSON value as produced by Python json.loads.  Python json.loads
additionally accepts the non-standard literals NaN, Infinity and
-Infinity (producing floats), modelled by the constructors nan and
inf. -/
inductive JValue where
  | null
  | bool (b : Bool)
  | num (n : JNum)
  | nan
  | inf (neg : Bool)
  | str (s : String)
  | arr (items : List JValue)
  | obj (fields : List (String × JValue))

/-- JSON whitespace accepted by json.loads between tokens: space, tab,
newline, carriage return. -/
def isJsonWs (c : Char) : Bool :=
  c = ' ' || c = '\t' || c = '\n' || c = '\r'

/-- Skip JSON whitespace. -/
def skipWs (cs : List Char) : List Char :=
  cs.dropWhile isJsonWs

/-- Numeric value of a decimal digit character. -/
def digitVal (c : Char) : Nat := c.toNat - 48

/-- Natural number denoted by a list of decimal digit characters. -/
def natOfDigits (ds : List Char) : Nat :=
  ds.foldl (fun a c => a * 10 + digitVal c) 0

/-- Numeric value of a hexadecimal digit character, if any. -/
def hexVal (c : Char) : Option Nat :=
  if c.isDigit then some (c.toNat - 48)
  else if 'a' ≤ c ∧ c ≤ 'f' then some (c.toNat - 87)
  else if 'A' ≤ c ∧ c ≤ 'F' then some (c.toNat - 55)
  else none

/-- Body of a JSON string literal, after the opening quote.  Models the
strict json.loads scanner: closing quote ends the string, backslash
escapes for quote, backslash, slash, b, f, n, r, t and uXXXX are decoded,
and a raw control character (code point below 32) is a parse error.
Lone surrogate escapes, which Python would keep as surrogate code units,
are outside the model (Char.ofNat maps them to the null character); no
input in this development uses them.  The first argument accumulates the
decoded characters in reverse. -/
def parseStringBody : List Char → List Char → Option (String × List Char)
  | _, [] => none
  | acc, c :: rest =>
    if c = '"' then some (⟨acc.reverse⟩, rest)
    else if c = '\\' then
      match rest with
      | [] => none
      | e :: rest2 =>
        if e = '"' then parseStringBody ('"' :: acc) rest2
        else if e = '\\' then parseStringBody ('\\' :: acc) rest2
        else if e = '/' then parseStringBody ('/' :: acc) rest2
        else if e = 'b' then parseStringBody ('\x08' :: acc) rest2
        else if e = 'f' then parseStringBody ('\x0c' :: acc) rest2
        else if e = 'n' then parseStringBody ('\n' :: acc) rest2
        else if e = 'r' then parseStringBody ('\r' :: acc) rest2
        else if e = 't' then parseStringBody ('\t' :: acc) rest2
        else if e = 'u' then
          match rest2 with
          | h1 :: h2 :: h3 :: h4 :: rest3 =>
            match hexVal h1, hexVal h2, hexVal h3, hexVal h4 with
            | some a, some b, some c2, some d =>
                parseStringBody (Char.ofNat (((a * 16 + b) * 16 + c2) * 16 + d) :: acc) rest3
            | _, _, _, _ => none
          | _ => none
        else none
    else if c.toNat < 32 then none
    else parseStringBody (c :: acc) rest

/-- Optional exponent part of a JSON number.  Returns the exponent and
remaining input; if no well-formed exponent follows, consumes nothing,
mirroring the optional group in the CPython NUMBER_RE regex. -/
def parseExp (cs : List Char) : Int × List Char :=
  match cs with
  | [] => (0, cs)
  | c :: rest =>
    if c = 'e' || c = 'E' then
      let sgnRest : Int × List Char :=
        match rest with
        | '+' :: r => (1, r)
        | '-' :: r => (-1, r)
        | _ => (1, rest)
      let ds := sgnRest.2.takeWhile Char.isDigit
      let rest3 := sgnRest.2.dropWhile Char.isDigit
      if ds.isEmpty then (0, cs) else (sgnRest.1 * (natOfDigits ds : Int), rest3)
    else (0, cs)

/-- A JSON number (or the non-standard -Infinity), mirroring the CPython
grammar: the integer part is a single 0 or a nonzero-led digit run, then
an optional fraction, then an optional exponent.  A leading-zero run such
as 042 therefore parses as 0 with 42 left over, exactly as in Python. -/
def parseNumber (cs : List Char) : Option (JValue × List Char) :=
  let signSplit : Bool × List Char :=
    match cs with
    | '-' :: rest => (true, rest)
    | _ => (false, cs)
  let neg := signSplit.1
  match signSplit.2 with
  | 'I' :: 'n' :: 'f' :: 'i' :: 'n' :: 'i' :: 't' :: 'y' :: rest =>
      some (.inf neg, rest)
  | cs1 =>
    let intSplit : List Char × List Char :=
      match cs1 with
      | '0' :: rest => (['0'], rest)
      | _ => (cs1.takeWhile Char.isDigit, cs1.dropWhile Char.isDigit)
    match intSplit.1 with
    | [] => none
    | _ =>
      let fracSplit : List Char × List Char :=
        match intSplit.2 with
        | '.' :: ds =>
          let f := ds.takeWhile Char.isDigit
          if f.isEmpty then ([], intSplit.2) else (f, ds.dropWhile Char.isDigit)
        | _ => ([], intSplit.2)
      let expSplit := parseExp fracSplit.2
      let allDigits : Nat := natOfDigits (intSplit.1 ++ fracSplit.1)
      let mantissa : Int := if neg then -(allDigits : Int) else (allDigits : Int)
      some (.num ⟨mantissa, fracSplit.1.length, expSplit.1⟩, expSplit.2)

/-- Parsing mode for the fuelled JSON scanner: a single value, the items
of an array after its opening bracket, or the fields of an object after
its opening brace (accumulators hold the elements parsed so far, in
reverse). -/
inductive PMode where
  | val
  | arrItems (acc : List JValue)
  | objItems (acc : List (String × JValue))

/-- Partial result of the fuelled JSON scanner. -/
inductive PRes where
  | v (x : JValue)
  | items (xs : List JValue)
  | fields (kvs : List (String × JValue))

/-- Fuelled recursive-descent JSON scanner modelling the strict
json.loads grammar.  Fuel only guards termination; jsonLoads supplies
more fuel than any input can consume. -/
def parseF : Nat → PMode → List Char → Option (PRes × List Char)
  | 0, _, _ => none
  | Nat.succ fuel, .val, cs =>
    match skipWs cs with
    | 'n' :: 'u' :: 'l' :: 'l' :: rest => some (.v .null, rest)
    | 't' :: 'r' :: 'u' :: 'e' :: rest => some (.v (.bool true), rest)
    | 'f' :: 'a' :: 'l' :: 's' :: 'e' :: rest => some (.v (.bool false), rest)
    | 'N' :: 'a' :: 'N' :: rest => some (.v .nan, rest)
    | 'I' :: 'n' :: 'f' :: 'i' :: 'n' :: 'i' :: 't' :: 'y' :: rest =>
        some (.v (.inf false), rest)
    | '"' :: rest =>
      match parseStringBody [] rest with
      | some (s, rest2) => some (.v (.str s), rest2)
      | none => none
    | '[' :: rest =>
      (match skipWs rest with
       | ']' :: rest2 => some (.v (.arr []), rest2)
       | _ =>
         match parseF fuel (.arrItems []) rest with
         | some (.items xs, rest2) => some (.v (.arr xs), rest2)
         | _ => none)
    | '\x7b' :: rest =>
      (match skipWs rest with
       | '\x7d' :: rest2 => some (.v (.obj []), rest2)
       | _ =>
         match parseF fuel (.objItems []) rest with
         | some (.fields kvs, rest2) => some (.v (.obj kvs), rest2)
         | _ => none)
    | cs1 =>
      match cs1 with
      | c :: _ =>
        if c = '-' || c.isDigit then
          match parseNumber cs1 with
          | some (x, rest) => some (.v x, rest)
          | none => none
        else none
      | [] => none
  | Nat.succ fuel, .arrItems acc, cs =>
    (match parseF fuel .val cs with
     | some (.v x, rest) =>
       (match skipWs rest with
        | ',' :: rest2 => parseF fuel (.arrItems (x :: acc)) rest2
        | ']' :: rest2 => some (.items (x :: acc).reverse, rest2)
        | _ => none)
     | _ => none)
  | Nat.succ fuel, .objItems acc, cs =>
    (match skipWs cs with
     | '"' :: rest =>
       (match parseStringBody [] rest with
        | some (k, rest2) =>
          (match skipWs rest2 with
           | ':' :: rest3 =>
             (match parseF fuel .val rest3 with
              | some (.v x, rest4) =>
                (match skipWs rest4 with
                 | ',' :: rest5 => parseF fuel (.objItems ((k, x) :: acc)) rest5
                 | '\x7d' :: rest5 => some (.fields ((k, x) :: acc).reverse, rest5)
                 | _ => none)
              | _ => none)
           | _ => none)
        | none => none)
     | _ => none)

/-- Model of Python json.loads: parse one JSON value and require that
only whitespace remains.  The error carries no information, matching the
fact that the source only ever catches json.JSONDecodeError wholesale. -/
def jsonLoads (s : String) : Except Unit JValue :=
  match parseF (2 * s.length + 2) .val s.data with
  | some (.v x, rest) => if (skipWs rest).isEmpty then .ok x else .error ()
  | _ => .error ()

example : jsonLoads "42" = .ok (.num ⟨42, 0, 0⟩) := by rfl

example : jsonLoads "\x7b\"content\": \"ok\"\x7d" =
    .ok (.obj [("content", .str "ok")]) := by rfl

example : jsonLoads "[]" = .ok (.arr []) := by rfl

example : jsonLoads "Here is your answer: \x7b\"content\": \"ok\"\x7d — hope that helps!" =
    .error () := by rfl

example : jsonLoads "[1, 2.5, [true, null]]" =
    .ok (.arr [.num ⟨1, 0, 0⟩, .num ⟨25, 1, 0⟩, .arr [.bool true, .null]]) := by rfl

example : jsonLoads "hello world" = .error () := by rfl

example : JNum.toQ ⟨25, 1, 0⟩ = 5 / 2 := by norm_num [JNum.toQ]

/-! ## The response normalizer (ai_base_models.py)

AnthropicBaseModel._parse_json_response and its helper
_extract_json_from_text (OpenAIBaseModel duplicates both verbatim). -/

/-- Errors raised by the embedded Python code. -/
inductive PyErr where
  | regexError (msg : String)
  | parseFailure (offendingText : String)
  | valueError (msg : String)
  | exception (msg : String)
deriving DecidableEq, Repr

/-- A value produced by _parse_json_response: either a parsed JSON value
or, from the regex-fallback strategy, the list of re.findall capture
tuples (each tuple a list of captured strings). -/
inductive PyValue where
  | json (v : JValue)
  | tuples (ts : List (List String))

/-- Model of an re.findall call with a caller-supplied (valid) fallback
pattern: a function from the searched text to the list of capture
tuples.  The two concrete patterns used by the adapters are abstracted
by this parameter; every theorem below holds for all values of it. -/
def RegexFallback : Type := String → List (List String)

/-- Control-character cleaning at the top of _parse_json_response: keep
characters with code point at least 32, and newline. -/
def cleanControl (s : String) : String :=
  ⟨s.data.filter (fun c => 32 ≤ c.toNat || c = '\n')⟩

/-- The condition of the fourth strategy of _parse_json_response:
`not any(char in cleaned_text for char in "(brace)(bracket)")`, that is,
the cleaned text contains no opening brace and no opening bracket. -/
def no_brace_bracket (s : String) : Bool :=
  s.data.all (fun c => !(c = '\x7b') && !(c = '['))

/-- Python str.strip() whitespace set (ASCII part). -/
def pyIsSpace (c : Char) : Bool :=
  c = ' ' || c = '\t' || c = '\n' || c = '\r' || c = '\x0b' || c = '\x0c'

/-- Model of Python str.strip() with no arguments. -/
def pyStrip (s : String) : String :=
  ⟨((s.data.dropWhile pyIsSpace).reverse.dropWhile pyIsSpace).reverse⟩

/-- Model of AnthropicBaseModel._extract_json_from_text
(ai_base_models.py lines 61-74).  The method runs
re.findall on the class-constant pattern whose text is
backslash-brace (?: [caret-brace-brace] | (?R) )* backslash-brace.
The (?R) recursive-pattern extension is a feature of the third-party
regex module; the standard library re module used here rejects it, so
re.findall raises re.error (unknown extension ?R at position 12) while
compiling the pattern, before looking at the text.  The error escapes
the method (only json.JSONDecodeError is caught inside it), so the model
returns that exception unconditionally. -/
def extract_json_from_text (_text : String) : Except PyErr (Option String) :=
  .error (.regexError "unknown extension ?R at position 12")

/-- Model of AnthropicBaseModel._parse_json_response (ai_base_models.py
lines 76-111), strategy by strategy:
1. clean control characters;
2. direct json.loads of the cleaned text;
3. _extract_json_from_text, then json.loads of the extracted substring
   (the re.error raised by _extract_json_from_text is not caught and
   escapes _parse_json_response, making everything below unreachable);
4. re.findall with the caller-supplied fallback pattern, returning the
   capture tuples if any;
5. if the cleaned text has no opening brace or bracket, wrap the
   stripped text as an object with single key content;
6. otherwise raise (Failed to parse AI response). -/
def parse_json_response (responseText : String) (fallbackPattern : Option RegexFallback) :
    Except PyErr PyValue :=
  let cleaned := cleanControl responseText
  match jsonLoads cleaned with
  | .ok v => .ok (.json v)
  | .error _ =>
    match extract_json_from_text cleaned with
    | .error e => .error e
    | .ok extracted =>
      let secondTry : Option JValue :=
        match extracted with
        | some t =>
          match jsonLoads t with
          | .ok v => some v
          | .error _ => none
        | none => none
      match secondTry with
      | some v => .ok (.json v)
      | none =>
        let patternMatches : List (List String) :=
          match fallbackPattern with
          | some findall => findall cleaned
          | none => []
        if !patternMatches.isEmpty then .ok (.tuples patternMatches)
        else if no_brace_bracket cleaned then
          .ok (.json (.obj [("content", .str (pyStrip cleaned))]))
        else .error (.parseFailure cleaned)

example : parse_json_response "\x7b\"content\": \"ok\"\x7d" none =
    .ok (.json (.obj [("content", .str "ok")])) := by rfl

example : parse_json_response "42" none = .ok (.json (.num ⟨42, 0, 0⟩)) := by rfl

example : parse_json_response "hello" none =
    .error (.regexError "unknown extension ?R at position 12") := by rfl

/-! ## Summarization adapter (summarization_models.py)

AnthropicSummarizationModel.generate_summary, lines 30-62: response text
is run through _parse_json_response with no fallback pattern, then the
summary is extracted by key priority. -/

/-- Python dict lookup on the field list produced by json.loads: with
duplicate keys the last occurrence wins, as in a Python dict built by
repeated insertion. -/
def dictGet (kvs : List (String × JValue)) (k : String) : Option JValue :=
  ((kvs.filter (fun p => p.1 = k)).getLast?).map (fun p => p.2)

/-- The key-priority extraction of generate_summary (lines 50-62): the
loop for key in [content, text, summary] returns the value of the first
key present when the parsed response is a dict; after the loop a plain
string response is returned directly; anything else raises. -/
def extract_summary_value (pv : PyValue) : Except PyErr JValue :=
  match pv with
  | .json (.obj kvs) =>
    match dictGet kvs "content" with
    | some x => .ok x
    | none =>
      match dictGet kvs "text" with
      | some x => .ok x
      | none =>
        match dictGet kvs "summary" with
        | some x => .ok x
        | none => .error (.exception "Failed to extract summary from AI response")
  | .json (.str s) => .ok (.str s)
  | _ => .error (.exception "Failed to extract summary from AI response")

/-- Model of AnthropicSummarizationModel.generate_summary from the
provider response text onward (the network call itself is the
_make_anthropic_request model below). -/
def generate_summary (responseText : String) : Except PyErr JValue :=
  (parse_json_response responseText none).bind extract_summary_value

example : generate_summary "\x7b\"text\": \"a\", \"content\": \"b\"\x7d" =
    .ok (.str "b") := by rfl

example : generate_summary "\"plain\"" = .ok (.str "plain") := by rfl

example : generate_summary "[1]" =
    .error (.exception "Failed to extract summary from AI response") := by rfl

/-! ## Clip-generation adapters (clip_generation_models.py)

AnthropicClipGenerationModel.extract_topics (lines 31-68) and
generate_clips (lines 70-118); the OpenAI variants repeat the same
post-parse logic verbatim. -/

/-- isinstance(item, dict) on a JSON value. -/
def isDict : JValue → Bool
  | .obj _ => true
  | _ => false

/-- Python str.strip(space-quote): drop leading and trailing characters
that are a space or a double quote (models k.strip with that two
character argument). -/
def stripSpaceQuote (s : String) : String :=
  let p : Char → Bool := fun c => c = ' ' || c = '"'
  ⟨((s.data.dropWhile p).reverse.dropWhile p).reverse⟩

/-- Remap of one regex-fallback tuple into the Topic shape (lines 64-66):
title and keywords captured as two strings, keywords split on commas and
stripped of spaces and quotes.  The two-group pattern always yields
pairs; out-of-range positions default to the empty string. -/
def topic_of_tuple (t : List String) : JValue :=
  .obj [("title", .str (t.getD 0 "")),
        ("keywords", .arr (((t.getD 1 "").splitOn ",").map
          (fun k => .str (stripSpaceQuote k))))]

/-- Decimal string to JSON number, modelling float() applied to a capture
of the clip fallback pattern (digits with an optional fraction). -/
def floatOfDecimal (s : String) : JNum :=
  match s.splitOn "." with
  | [i] => ⟨(natOfDigits i.data : Int), 0, 0⟩
  | [i, f] => ⟨(natOfDigits (i.data ++ f.data) : Int), f.length, 0⟩
  | _ => ⟨0, 0, 0⟩

/-- Remap of one regex-fallback tuple into the clip shape (lines 114-116):
title, start and end captured as three strings, the times converted with
float(). -/
def clip_of_tuple (t : List String) : JValue :=
  .obj [("title", .str (t.getD 0 "")),
        ("start", .num (floatOfDecimal (t.getD 1 ""))),
        ("end", .num (floatOfDecimal (t.getD 2 "")))]

/-- Shape handling shared by extract_topics and generate_clips
(lines 59-68 and 109-118), parameterized by the tuple remap and the
error message: if the parsed response is a list whose items are all
dicts it is returned as is (vacuously so for the empty list); a list of
regex tuples is remapped; every other shape raises ValueError.  A JSON
array never contains Python tuples, so for it the all-tuples branch can
only fire vacuously, which the all-dicts branch already caught. -/
def clip_shape (remap : List String → JValue) (errMsg : String) (pv : PyValue) :
    Except PyErr (List JValue) :=
  match pv with
  | .json (.arr items) =>
    if items.all isDict then .ok items
    else .error (.valueError errMsg)
  | .tuples ts =>
    if ts.isEmpty then .ok []
    else .ok (ts.map remap)
  | _ => .error (.valueError errMsg)

/-- Model of AnthropicClipGenerationModel.extract_topics from the
provider response text onward. -/
def extract_topics (findall : RegexFallback) (responseText : String) :
    Except PyErr (List JValue) :=
  (parse_json_response responseText (some findall)).bind
    (clip_shape topic_of_tuple "Failed to extract valid topics from the AI response")

/-- Model of AnthropicClipGenerationModel.generate_clips from the
provider response text onward. -/
def generate_clips (findall : RegexFallback) (responseText : String) :
    Except PyErr (List JValue) :=
  (parse_json_response responseText (some findall)).bind
    (clip_shape clip_of_tuple "Failed to extract valid clips from the AI response")

example : extract_topics (fun _ => []) "[]" = .ok [] := by rfl

example : extract_topics (fun _ => [])
    "[\x7b\"title\": \"T\", \"keywords\": [\"a\"]\x7d]" =
    .ok [.obj [("title", .str "T"), ("keywords", .arr [.str "a"])]] := by rfl

example : generate_clips (fun _ => []) "[]" = .ok [] := by rfl

/-! ## Legacy pipeline helpers (ai_jobs.py)

create_media_clips, lines 144-233: topic extraction and clip planning
with their own json.loads plus regex fallback, followed by emptiness
checks (if not topics / if not clips). -/

/-- Python truthiness of a JSON value (bool() of the corresponding
Python object).  bool(float(nan)) and bool(inf) are both True. -/
def pyTruthy : JValue → Bool
  | .null => false
  | .bool b => b
  | .num n => !(n.mantissa = 0)
  | .nan => true
  | .inf _ => true
  | .str s => !s.isEmpty
  | .arr items => !items.isEmpty
  | .obj kvs => !kvs.isEmpty

/-- Topic section of create_media_clips (ai_jobs.py lines 182-190):
json.loads of the response text; on JSONDecodeError, re.findall with the
two-group topic pattern (abstracted as the findall argument) remapped to
topic dicts; then `if not topics` raises ValueError. -/
def create_media_clips_topics (findall : String → List (String × String))
    (topicText : String) : Except PyErr JValue :=
  let topics : JValue :=
    match jsonLoads topicText with
    | .ok v => v
    | .error _ =>
      .arr ((findall topicText).map (fun p =>
        .obj [("title", .str p.1),
              ("keywords", .arr ((p.2.splitOn ",").map
                (fun k => .str (stripSpaceQuote k))))]))
  if pyTruthy topics then .ok topics
  else .error (.valueError "Failed to extract topics from the AI response")

/-- Clip section of create_media_clips (ai_jobs.py lines 225-233):
json.loads of the response text; on JSONDecodeError, re.findall with the
three-group clip pattern (abstracted as the findall argument) remapped to
clip dicts with float() times; then `if not clips` raises ValueError. -/
def create_media_clips_clips (findall : String → List (String × String × String))
    (clipText : String) : Except PyErr JValue :=
  let clips : JValue :=
    match jsonLoads clipText with
    | .ok v => v
    | .error _ =>
      .arr ((findall clipText).map (fun p =>
        .obj [("title", .str p.1),
              ("start", .num (floatOfDecimal p.2.1)),
              ("end", .num (floatOfDecimal p.2.2))]))
  if pyTruthy clips then .ok clips
  else .error (.valueError "Failed to extract clip information from the AI response")

example : create_media_clips_topics (fun _ => []) "[]" =
    .error (.valueError "Failed to extract topics from the AI response") := by rfl

example : create_media_clips_topics (fun _ => []) "no json here" =
    .error (.valueError "Failed to extract topics from the AI response") := by rfl

/-! ## Transcription polling

ReplicateBaseModel._poll_replicate_result (transcription_models.py
lines 41-55) and the legacy ai_jobs.get_transcription_result
(ai_jobs.py lines 42-55).  Both loop forever: GET the prediction URL,
return on status succeeded, raise on status failed, otherwise sleep five
seconds and repeat.  The run is modelled against the finite list of
responses the provider would serve to successive queries; the model
returns the outcome together with the number of status queries issued
and the total seconds slept, or none when the response list is exhausted
with no terminal status observed (the real loop would still be
polling). -/

/-- One provider status response, as consumed by the polling loops:
its status string, its error field if present (read via
result.get on failure), and the payload under output.segments
(read on success by the callers of _poll_replicate_result and directly
by ai_jobs.get_transcription_result). -/
structure PollResponse where
  status : String
  error : Option String
  segments : JValue

/-- Model of ReplicateBaseModel._poll_replicate_result.  On failed, the
raised message appends the error field of the response (or Unknown
error when absent) after the fixed prefix. -/
def poll_replicate_result : List PollResponse → Option (Except String PollResponse × Nat × Nat)
  | [] => none
  | r :: rest =>
    if r.status = "succeeded" then some (.ok r, 1, 0)
    else if r.status = "failed" then
      some (.error ("Transcription process failed: " ++ r.error.getD "Unknown error"), 1, 0)
    else
      match poll_replicate_result rest with
      | none => none
      | some (out, queries, slept) => some (out, queries + 1, slept + 5)

/-- Model of the legacy ai_jobs.get_transcription_result.  On failed it
raises the fixed message (Transcription process failed.) and discards
the error field of the response; on succeeded it returns
result.output.segments. -/
def ai_jobs_get_transcription_result :
    List PollResponse → Option (Except String JValue × Nat × Nat)
  | [] => none
  | r :: rest =>
    if r.status = "succeeded" then some (.ok r.segments, 1, 0)
    else if r.status = "failed" then
      some (.error "Transcription process failed.", 1, 0)
    else
      match ai_jobs_get_transcription_result rest with
      | none => none
      | some (out, queries, slept) => some (out, queries + 1, slept + 5)

/-- Substring check used to state whether a raised message carries a
provider error message. -/
def strContains (hay needle : String) : Bool :=
  hay.data.tails.any (fun t => needle.data.isPrefixOf t)

example : strContains "Transcription process failed: rate limited" "rate limited" = true := by rfl

example : strContains "Transcription process failed." "rate limited" = false := by rfl

/-! ## Adapter request retry loops

AnthropicBaseModel._make_anthropic_request (ai_base_models.py
lines 13-59) retries both transport failures and error envelopes up to
the retries parameter (default 2) of additional attempts, with no sleep
between attempts.  ReplicateBaseModel._make_replicate_request
(transcription_models.py lines 25-39) performs a single post with no
retry logic at all. -/

/-- Classification of one network attempt, as observed by the request
helpers: a requests.RequestException raised by post or raise_for_status
with message m; a delivered JSON body containing an error key whose
error.message is m; or a delivered body without an error key, whose
extracted text (body content, first block, text field, with the
defaults applied by .get) is t. -/
inductive Attempt where
  | transportError (msg : String)
  | errorEnvelope (msg : String)
  | success (text : String)
deriving DecidableEq, Repr

/-- True when the attempt is a transport failure or error envelope. -/
def Attempt.isFailure : Attempt → Bool
  | .success _ => false
  | _ => true

/-- Fatal message raised by _make_anthropic_request when the final
allowed attempt fails. -/
def anthropicFatal : Attempt → String
  | .errorEnvelope m => "Anthropic API error: " ++ m
  | .transportError m => "Failed to communicate with Anthropic API: " ++ m
  | .success _ => ""

/-- The `for attempt in range(retries + 1)` loop of
_make_anthropic_request: i is the index of the current attempt, left+1
the number of iterations remaining (so `attempt < retries` is left not
equal to 0).  outcome gives the result of each attempt in order; the pair
returned is the Python result together with the number of attempts
actually performed.  The left = 0 base case is the unreachable
post-loop raise (All retry attempts failed). -/
def anthropic_request_loop (outcome : Nat → Attempt) : Nat → Nat → Except String String × Nat
  | _, 0 => (.error "All retry attempts failed", 0)
  | i, Nat.succ left =>
    match outcome i with
    | .success t => (.ok t, 1)
    | .errorEnvelope m =>
      if left = 0 then (.error ("Anthropic API error: " ++ m), 1)
      else
        let r := anthropic_request_loop outcome (i + 1) left
        (r.1, r.2 + 1)
    | .transportError m =>
      if left = 0 then (.error ("Failed to communicate with Anthropic API: " ++ m), 1)
      else
        let r := anthropic_request_loop outcome (i + 1) left
        (r.1, r.2 + 1)

/-- Model of _make_anthropic_request with its retries parameter
(the source default is 2). -/
def make_anthropic_request (outcome : Nat → Attempt) (retries : Nat) :
    Except String String × Nat :=
  anthropic_request_loop outcome 0 (retries + 1)

/-- Model of ReplicateBaseModel._make_replicate_request: a single post;
a transport failure (including raise_for_status) propagates immediately;
a delivered body is returned as is.  There is no error-envelope
inspection and no retry: a body carrying an error envelope is returned
as a successful result. -/
def make_replicate_request (outcome : Nat → Attempt) : Except String Attempt × Nat :=
  match outcome 0 with
  | .transportError m => (.error ("requests.RequestException: " ++ m), 1)
  | a => (.ok a, 1)

example : make_anthropic_request (fun _ => .transportError "x") 2 =
    (.error "Failed to communicate with Anthropic API: x", 3) := by rfl

example : make_anthropic_request (fun i => if i = 0 then .errorEnvelope "e" else .success "t") 2 =
    (.ok "t", 2) := by rfl

/-! ## Clip materialization (clip_generation_models.py create_clips,
lines 120-145; ai_jobs.py create_media_clips, lines 247-258)

Both copies derive a filesystem-safe name per clip title and apply the
half-second buffer to the clip window before building the ffmpeg
command. -/

/-- Model of Python str.isalnum restricted to ASCII (titles in this
development are ASCII; for non-ASCII characters Python is more
permissive, which only widens the set of characters the filter keeps). -/
def pyIsAlnum (c : Char) : Bool := c.isAlphanum

/-- The generator-expression filter of the safe-title computation: keep
characters that are alphanumeric, a space or an underscore. -/
def title_filter (t : String) : List Char :=
  t.data.filter (fun c => pyIsAlnum c || c = ' ' || c = '_')

/-- Model of Python str.rstrip() with no arguments: drop trailing
whitespace. -/
def pyRstrip (cs : List Char) : List Char :=
  (cs.reverse.dropWhile pyIsSpace).reverse

/-- The safe-title computation (clip_generation_models.py lines 133-134):
filter to alphanumerics, spaces and underscores, rstrip, then replace
every space with an underscore.  Note there is no lstrip. -/
def safe_title (t : String) : String :=
  ⟨(pyRstrip (title_filter t)).map (fun c => if c = ' ' then '_' else c)⟩

example : safe_title "Hello, World!" = "Hello_World" := by rfl

example : safe_title "! hello" = "_hello" := by rfl

/-- A clip window as planned by clip planning (title, start and end in
seconds).  The source field named end is called stop here because end is
reserved in Lean. -/
structure ClipWindow where
  title : String
  start : ℚ
  stop : ℚ

/-- One entry of the command batch built per clip: the derived output
name and the buffered cut times passed to ffmpeg (-ss and -to).  Lines
136-140: buffer = 0.5, start_time = max(0, start - buffer),
end_time = end + buffer. -/
structure CutRequest where
  outputName : String
  startTime : ℚ
  endTime : ℚ

/-- The per-clip body of the loop in create_clips. -/
def clip_cut (c : ClipWindow) : CutRequest :=
  { outputName := safe_title c.title
    startTime := max 0 (c.start - 1/2)
    endTime := c.stop + 1/2 }

/-- Model of create_clips: the batch of cut requests, one per clip
window, in order (the source then renders each to a command string and
joins them; the request list carries the data of those commands). -/
def create_clips (clips : List ClipWindow) : List CutRequest :=
  clips.map clip_cut

/-! ## Orchestrator cleanup (server.py process_media, lines 123-204)

The try body runs five fallible operations before output_folder is
assigned and the folder created by os.makedirs (status update plus
get_exporter; upload_to_s3; get_s3_presigned_url; start_transcription;
get_transcription_result) and seven after (write transcription;
generate_content; write content; create_media_clips; save_debug_info;
execute_ffmpeg_commands; create_zip_of_processed_files).  The except
clause catches the failure and returns None; the finally clause removes
the media file and then evaluates `if output_folder`, which raises
UnboundLocalError when the assignment was never reached.  A run is
modelled by the outcome lists of the operations before and after the
folder creation point. -/

/-- Outcome of one fallible pipeline operation. -/
inductive StageOutcome where
  | ok
  | fail (msg : String)
deriving DecidableEq, Repr

/-- Message of the first failing operation, if any; operations after the
first failure are never executed. -/
def firstFail : List StageOutcome → Option String
  | [] => none
  | .ok :: rest => firstFail rest
  | .fail m :: _ => some m

/-- What survives on disk after a run: the uploaded input media file and
the working output folder. -/
structure MediaFsState where
  mediaFileExists : Bool
  outputFolderExists : Bool
deriving DecidableEq, Repr

/-- How a process_media call ends: a normal return (with the zip path on
success, None after a handled failure) or an exception escaping the
function. -/
inductive PMResult where
  | returned (zipPath : Option String)
  | raised (msg : String)
deriving DecidableEq, Repr

/-- The try body: a failure before the folder-creation point leaves
output_folder unassigned; afterwards it is assigned and the folder
exists.  Returns the body result and whether output_folder was
assigned. -/
def process_media_body (pre post : List StageOutcome) : Except String String × Bool :=
  match firstFail pre with
  | some m => (.error m, false)
  | none =>
    match firstFail post with
    | some m => (.error m, true)
    | none => (.ok "zip", true)

/-- The except clause: any exception from the body is logged, recorded
in the status cell and swallowed, returning None. -/
def process_media_handled (pre post : List StageOutcome) : Option String × Bool :=
  match process_media_body pre post with
  | (.ok z, b) => (some z, b)
  | (.error _, b) => (none, b)

/-- The finally clause: remove the media file if it exists; then
evaluate `if output_folder and os.path.exists(output_folder)` — an
UnboundLocalError when output_folder was never assigned (the exact
interpreter message varies across Python versions; the model keeps a
fixed rendering), else remove the folder.  Returns the resulting state
and the exception raised by the clause, if any. -/
def process_media_finally (folderBound : Bool) (st : MediaFsState) :
    MediaFsState × Option String :=
  let st1 : MediaFsState := { st with mediaFileExists := false }
  if folderBound then ({ st1 with outputFolderExists := false }, none)
  else (st1, some "UnboundLocalError: local variable output_folder referenced before assignment")

/-- Model of process_media: Python try/except/finally semantics, with an
exception raised by the finally clause replacing the pending return. -/
def process_media (pre post : List StageOutcome) : PMResult × MediaFsState :=
  let handled := process_media_handled pre post
  let st0 : MediaFsState := { mediaFileExists := true, outputFolderExists := handled.2 }
  let fin := process_media_finally handled.2 st0
  match fin.2 with
  | some e => (.raised e, fin.1)
  | none => (.returned handled.1, fin.1)

/-! ## Job status store (server.py lines 36-37, 80-87, 236-241) -/

/-- The ProcessingStatus pydantic model: status, progress, message. -/
structure ProcessingStatus where
  status : String
  progress : Int
  message : String
deriving DecidableEq, Repr

/-- Model of update_processing_status: the whole cell is replaced by a
freshly constructed ProcessingStatus in a single assignment; the old
value is ignored. -/
def update_processing_status (_old : Option ProcessingStatus)
    (status : String) (progress : Int) (message : String) : Option ProcessingStatus :=
  some { status := status, progress := progress, message := message }

/-- Model of the GET /status handler get_status: the idle triple while
the cell still holds its initial None, else the stored value. -/
def get_status : Option ProcessingStatus → ProcessingStatus
  | none => { status := "idle", progress := 0, message := "" }
  | some s => s

/-- A sequence of status updates applied to the cell in order. -/
def apply_updates (init : Option ProcessingStatus)
    (ups : List (String × Int × String)) : Option ProcessingStatus :=
  ups.foldl (fun st u => update_processing_status st u.1 u.2.1 u.2.2) init

/-! ## Shared helper lemmas -/

theorem mem_of_mem_dropWhile {α : Type} (p : α → Bool) {a : α} :
    ∀ {l : List α}, a ∈ l.dropWhile p → a ∈ l := by
  intro l
  induction l with
  | nil => intro h; exact absurd h (by simp [List.dropWhile])
  | cons b bs ih =>
    intro h
    rw [List.dropWhile] at h
    cases hb : p b with
    | true =>
      rw [hb] at h
      exact List.mem_cons_of_mem b (ih h)
    | false =>
      rw [hb] at h
      exact h

theorem head?_dropWhile_false {α : Type} (p : α → Bool) {a : α} :
    ∀ {l : List α}, (l.dropWhile p).head? = some a → p a = false := by
  intro l
  induction l with
  | nil => intro h; exact absurd h (by simp [List.dropWhile])
  | cons b bs ih =>
    intro h
    rw [List.dropWhile] at h
    cases hb : p b with
    | true =>
      rw [hb] at h
      exact ih h
    | false =>
      rw [hb] at h
      simp only [List.head?_cons, Option.some.injEq] at h
      rw [← h]
      exact hb

theorem mem_of_mem_pyRstrip {a : Char} {l : List Char} (h : a ∈ pyRstrip l) : a ∈ l := by
  unfold pyRstrip at h
  rw [List.mem_reverse] at h
  exact List.mem_reverse.1 (mem_of_mem_dropWhile pyIsSpace h)

theorem pyRstrip_getLast?_not_space {a : Char} {l : List Char}
    (h : (pyRstrip l).getLast? = some a) : pyIsSpace a = false := by
  unfold pyRstrip at h
  rw [← List.head?_reverse, List.reverse_reverse] at h
  exact head?_dropWhile_false pyIsSpace h

/-! ## Claim theorems -/

/-- Claim C1 (code bug): the spec requires the normalizer to recover the
first balanced brace-delimited JSON substring from prose-wrapped output,
and for the scenario input to return the object with content ok.  The
brace substring does parse as JSON on its own (first conjunct) while the
full cleaned text does not (second conjunct), so _parse_json_response
reaches _extract_json_from_text; but that call raises re.error while
compiling its (?R) pattern, which escapes _parse_json_response (third
conjunct): the normalizer raises instead of returning the object. -/
theorem c1_normalizer_crashes_on_wrapped_json :
    jsonLoads "\x7b\"content\": \"ok\"\x7d" = .ok (.obj [("content", .str "ok")]) ∧
    jsonLoads (cleanControl "Here is your answer: \x7b\"content\": \"ok\"\x7d — hope that helps!") =
      .error () ∧
    parse_json_response "Here is your answer: \x7b\"content\": \"ok\"\x7d — hope that helps!" none =
      .error (.regexError "unknown extension ?R at position 12") :=
  ⟨rfl, rfl, rfl⟩

/-- Claim C2, counterexample: the input 42 contains no brace or bracket
and is returned as the parsed number 42 by the direct-parse strategy,
not as the wrapped object with content 42 that the claim requires for
all such inputs. -/
theorem c2_counterexample :
    no_brace_bracket (cleanControl "42") = true ∧
    parse_json_response "42" none = .ok (.json (.num ⟨42, 0, 0⟩)) ∧
    PyValue.json (.num ⟨42, 0, 0⟩) ≠ PyValue.json (.obj [("content", .str "42")]) :=
  ⟨rfl, rfl, by intro h; injection h with h2; cases h2⟩

/-- Claim C2 (amended): for every input whose cleaned form contains no
opening brace and no opening bracket, the normalizer returns the direct
strict-JSON parse of the cleaned text when that parse succeeds (bare
numbers, quoted strings, true/false/null come back as themselves), and
otherwise raises the re.error from the broken extraction step; the
plain-text wrap is never produced for any such input. -/
theorem c2_amended (t : String) (_h : no_brace_bracket (cleanControl t) = true) :
    parse_json_response t none =
      (match jsonLoads (cleanControl t) with
       | .ok v => .ok (.json v)
       | .error _ => .error (.regexError "unknown extension ?R at position 12")) := by
  cases hj : jsonLoads (cleanControl t) with
  | ok v => simp [parse_json_response, hj]
  | error e => simp [parse_json_response, hj, extract_json_from_text]

/-- Witness for c2_amended at the input hello world: brace-free, not
valid JSON, so the normalizer raises the regex error rather than
producing the wrapped object. -/
theorem c2_amended_witness :
    no_brace_bracket (cleanControl "hello world") = true ∧
    parse_json_response "hello world" none =
      .error (.regexError "unknown extension ?R at position 12") :=
  ⟨rfl, (c2_amended "hello world" rfl).trans rfl⟩

/-- Claim C4 (code bug): cleanup behavior of process_media.  On a fully
successful run and on a run failing after the output folder exists, the
finally clause removes both the media file and the folder (first and
second conjuncts).  But when a stage before the output_folder assignment
fails — here the fourth pre-folder operation, start_transcription — the
finally clause removes the media file and then crashes with
UnboundLocalError at the `if output_folder` check, so the cleanup step
does not run to completion and process_media propagates an exception
instead of returning (third conjunct). -/
theorem c4_cleanup_behavior :
    process_media [.ok, .ok, .ok, .ok, .ok] [.ok, .ok, .ok, .ok, .ok, .ok, .ok] =
      (.returned (some "zip"), { mediaFileExists := false, outputFolderExists := false }) ∧
    process_media [.ok, .ok, .ok, .ok, .ok] [.ok, .fail "generate_content failed", .ok, .ok, .ok, .ok, .ok] =
      (.returned none, { mediaFileExists := false, outputFolderExists := false }) ∧
    process_media [.ok, .ok, .ok, .fail "start_transcription failed", .ok] [.ok, .ok, .ok, .ok, .ok, .ok, .ok] =
      (.raised "UnboundLocalError: local variable output_folder referenced before assignment",
       { mediaFileExists := false, outputFolderExists := false }) :=
  ⟨rfl, rfl, rfl⟩

/-- Claim C5, counterexample: a topic-extraction response and a
clip-planning response that parse to the empty JSON array are returned
by the class-based adapters as the empty list, not signalled as
failures (the all-dicts check is vacuously true on the empty list). -/
theorem c5_counterexample :
    extract_topics (fun _ => []) "[]" = .ok [] ∧
    generate_clips (fun _ => []) "[]" = .ok [] :=
  ⟨rfl, rfl⟩

/-- Claim C5 (amended): emptiness handling differs between the two
implementations.  In ai_jobs.create_media_clips an empty topics or clips
result — whether from a parsed empty array or from a failed parse with
no regex matches — raises ValueError (first three conjuncts); the
class-based adapters return an empty parsed list to the caller without
error (last two conjuncts). -/
theorem c5_amended (f : RegexFallback)
    (g : String → List (String × String)) (k : String → List (String × String × String))
    (tJson tFail tAdapter cJson : String)
    (h1 : jsonLoads tJson = .ok (.arr []))
    (h2 : jsonLoads tFail = .error ()) (h3 : g tFail = [])
    (h4 : jsonLoads cJson = .ok (.arr []))
    (h5 : parse_json_response tAdapter (some f) = .ok (.json (.arr []))) :
    create_media_clips_topics g tJson =
      .error (.valueError "Failed to extract topics from the AI response") ∧
    create_media_clips_topics g tFail =
      .error (.valueError "Failed to extract topics from the AI response") ∧
    create_media_clips_clips k cJson =
      .error (.valueError "Failed to extract clip information from the AI response") ∧
    extract_topics f tAdapter = .ok [] ∧
    generate_clips f tAdapter = .ok [] := by
  refine ⟨?_, ?_, ?_, ?_, ?_⟩
  · unfold create_media_clips_topics
    rw [h1]
    rfl
  · unfold create_media_clips_topics
    rw [h2, h3]
    rfl
  · unfold create_media_clips_clips
    rw [h4]
    rfl
  · unfold extract_topics
    rw [h5]
    rfl
  · unfold generate_clips
    rw [h5]
    rfl

/-- Witness for c5_amended on concrete inputs: the empty JSON array, a
non-JSON text with no regex matches, and the empty array fed to the
adapters. -/
theorem c5_amended_witness :
    create_media_clips_topics (fun _ => []) "[]" =
      .error (.valueError "Failed to extract topics from the AI response") ∧
    create_media_clips_topics (fun _ => []) "no json here" =
      .error (.valueError "Failed to extract topics from the AI response") ∧
    create_media_clips_clips (fun _ => []) "[]" =
      .error (.valueError "Failed to extract clip information from the AI response") ∧
    extract_topics (fun _ => []) "[]" = .ok [] ∧
    generate_clips (fun _ => []) "[]" = .ok [] :=
  c5_amended (fun _ => []) (fun _ => []) (fun _ => [])
    "[]" "no json here" "[]" "[]" rfl rfl rfl rfl rfl

/-- Claim C6: key-priority extraction of generate_summary.  Whenever the
normalizer succeeds on the response text, the returned summary is the
value of the first present key among content, text, summary (in that
order) when the normalized value is an object; the string itself when it
is a bare string; and ContentExtractionFailed (the raised exception)
for every other shape. -/
theorem c6_generate_summary_priority (t : String) (v : PyValue)
    (h : parse_json_response t none = .ok v) :
    (∀ kvs, v = .json (.obj kvs) →
      generate_summary t =
        (match dictGet kvs "content" with
         | some x => .ok x
         | none =>
           match dictGet kvs "text" with
           | some x => .ok x
           | none =>
             match dictGet kvs "summary" with
             | some x => .ok x
             | none => .error (.exception "Failed to extract summary from AI response"))) ∧
    (∀ s, v = .json (.str s) → generate_summary t = .ok (.str s)) ∧
    ((∀ kvs, v ≠ .json (.obj kvs)) → (∀ s, v ≠ .json (.str s)) →
      generate_summary t = .error (.exception "Failed to extract summary from AI response")) := by
  refine ⟨fun kvs hv => ?_, fun s hv => ?_, fun hobj hstr => ?_⟩
  · subst hv
    unfold generate_summary
    rw [h]
    rfl
  · subst hv
    unfold generate_summary
    rw [h]
    rfl
  · unfold generate_summary
    rw [h]
    show extract_summary_value v = _
    match v with
    | .json (.obj kvs) => exact absurd rfl (hobj kvs)
    | .json (.str s) => exact absurd rfl (hstr s)
    | .json .null => rfl
    | .json (.bool b) => rfl
    | .json (.num n) => rfl
    | .json .nan => rfl
    | .json (.inf b) => rfl
    | .json (.arr items) => rfl
    | .tuples ts => rfl

/-- Witness for c6_generate_summary_priority: an object carrying both a
text key and a content key yields the content value (priority order),
even though text appears first in the object. -/
theorem c6_witness :
    parse_json_response "\x7b\"text\": \"a\", \"content\": \"b\"\x7d" none =
      .ok (.json (.obj [("text", .str "a"), ("content", .str "b")])) ∧
    generate_summary "\x7b\"text\": \"a\", \"content\": \"b\"\x7d" = .ok (.str "b") :=
  ⟨rfl,
    ((c6_generate_summary_priority "\x7b\"text\": \"a\", \"content\": \"b\"\x7d"
        (.json (.obj [("text", .str "a"), ("content", .str "b")])) rfl).1
      [("text", .str "a"), ("content", .str "b")] rfl).trans rfl⟩

/-- Claim C3, counterexample: the legacy polling operation
ai_jobs.get_transcription_result, used by the running server
(server.py imports it from ai_jobs), observes status failed with error
rate limited, stops after that single query, but raises the fixed
message Transcription process failed. which does not carry the provider
error message. -/
theorem c3_counterexample :
    ai_jobs_get_transcription_result [⟨"failed", some "rate limited", .null⟩] =
      some (.error "Transcription process failed.", 1, 0) ∧
    strContains "Transcription process failed." "rate limited" = false :=
  ⟨rfl, rfl⟩

/-- Claim C3 (amended): for every polling run whose responses are
non-terminal until a failed response with an error message, both polling
implementations stop at the failed response — the query count is the
prefix length plus one whatever responses would follow — and sleep five
seconds between consecutive queries (total five times the prefix
length).  The adapter ReplicateBaseModel._poll_replicate_result raises a
message carrying the provider error; the legacy
ai_jobs.get_transcription_result raises the fixed message without it. -/
theorem c3_amended (pre : List PollResponse) (r : PollResponse) (rest : List PollResponse)
    (e : String)
    (hpre : ∀ x ∈ pre, x.status ≠ "succeeded" ∧ x.status ≠ "failed")
    (hr : r.status = "failed") (he : r.error = some e) :
    poll_replicate_result (pre ++ r :: rest) =
      some (.error ("Transcription process failed: " ++ e), pre.length + 1, 5 * pre.length) ∧
    ai_jobs_get_transcription_result (pre ++ r :: rest) =
      some (.error "Transcription process failed.", pre.length + 1, 5 * pre.length) := by
  induction pre with
  | nil =>
    rw [List.nil_append]
    constructor
    · rw [poll_replicate_result, hr, he]
      rfl
    · rw [ai_jobs_get_transcription_result, hr]
      rfl
  | cons a as ih =>
    obtain ⟨ha1, ha2⟩ := hpre a (List.mem_cons_self a as)
    have ih2 := ih (fun x hx => hpre x (List.mem_cons_of_mem a hx))
    rw [List.cons_append]
    constructor
    · rw [poll_replicate_result, if_neg (by simpa using ha1), if_neg (by simpa using ha2),
        ih2.1]
      simp only [List.length_cons]
      have h5 : 5 * as.length + 5 = 5 * (as.length + 1) := by ring
      rw [h5]
    · rw [ai_jobs_get_transcription_result, if_neg (by simpa using ha1),
        if_neg (by simpa using ha2), ih2.2]
      simp only [List.length_cons]
      have h5 : 5 * as.length + 5 = 5 * (as.length + 1) := by ring
      rw [h5]

/-- Witness for c3_amended: one non-terminal response, then failed with
error rate limited, with a would-be succeeded response behind it that is
never queried. -/
theorem c3_amended_witness :
    poll_replicate_result
      [⟨"processing", none, .null⟩, ⟨"failed", some "rate limited", .null⟩,
       ⟨"succeeded", none, .null⟩] =
      some (.error "Transcription process failed: rate limited", 2, 5) ∧
    ai_jobs_get_transcription_result
      [⟨"processing", none, .null⟩, ⟨"failed", some "rate limited", .null⟩,
       ⟨"succeeded", none, .null⟩] =
      some (.error "Transcription process failed.", 2, 5) := by
  have h := c3_amended [⟨"processing", none, .null⟩] ⟨"failed", some "rate limited", .null⟩
    [⟨"succeeded", none, .null⟩] "rate limited"
    (by
      intro x hx
      rw [List.mem_singleton] at hx
      subst hx
      exact ⟨by decide, by decide⟩)
    rfl rfl
  exact ⟨h.1.trans rfl, h.2.trans rfl⟩

/-- Claim C7, counterexample: _make_replicate_request is a
network-calling adapter operation, yet a transport failure on its single
attempt is raised immediately with no retry — on the same outcome
sequence, the retrying Anthropic helper would have succeeded on its
second attempt. -/
theorem c7_counterexample :
    make_replicate_request
      (fun i => if i = 0 then Attempt.transportError "connection reset" else Attempt.success "ok") =
      (.error "requests.RequestException: connection reset", 1) ∧
    make_anthropic_request
      (fun i => if i = 0 then Attempt.transportError "connection reset" else Attempt.success "ok")
      2 =
      (.ok "ok", 2) :=
  ⟨rfl, rfl⟩

theorem anthropic_loop_attempts_le (outcome : Nat → Attempt) :
    ∀ left i, (anthropic_request_loop outcome i left).2 ≤ left := by
  intro left
  induction left with
  | zero => intro i; exact Nat.le_refl 0
  | succ left ih =>
    intro i
    rw [anthropic_request_loop]
    cases outcome i with
    | success t => exact Nat.succ_le_succ (Nat.zero_le left)
    | errorEnvelope m =>
      dsimp only
      by_cases hl : left = 0
      · rw [if_pos hl]
        exact Nat.succ_le_succ (Nat.zero_le left)
      · rw [if_neg hl]
        exact Nat.succ_le_succ (ih (i + 1))
    | transportError m =>
      dsimp only
      by_cases hl : left = 0
      · rw [if_pos hl]
        exact Nat.succ_le_succ (Nat.zero_le left)
      · rw [if_neg hl]
        exact Nat.succ_le_succ (ih (i + 1))

theorem anthropic_loop_all_fail (outcome : Nat → Attempt) :
    ∀ left i, (∀ j, j ≤ left → (outcome (i + j)).isFailure = true) →
      anthropic_request_loop outcome i (left + 1) =
        (.error (anthropicFatal (outcome (i + left))), left + 1) := by
  intro left
  induction left with
  | zero =>
    intro i h
    have h0 := h 0 (Nat.le_refl 0)
    rw [Nat.add_zero] at h0
    rw [anthropic_request_loop, Nat.add_zero]
    cases ho : outcome i with
    | success t =>
      rw [ho] at h0
      exact absurd h0 (by simp [Attempt.isFailure])
    | errorEnvelope m => simp [Nat.add_zero, ho, anthropicFatal]
    | transportError m => simp [Nat.add_zero, ho, anthropicFatal]
  | succ left ih =>
    intro i h
    have h0 := h 0 (Nat.zero_le _)
    rw [Nat.add_zero] at h0
    have hshift : ∀ j, j ≤ left → (outcome (i + 1 + j)).isFailure = true := by
      intro j hj
      have hh := h (j + 1) (by omega)
      rwa [show i + (j + 1) = i + 1 + j by omega] at hh
    have hrec := ih (i + 1) hshift
    rw [anthropic_request_loop]
    cases ho : outcome i with
    | success t =>
      rw [ho] at h0
      exact absurd h0 (by simp [Attempt.isFailure])
    | errorEnvelope m =>
      dsimp only
      rw [if_neg (Nat.succ_ne_zero left), hrec,
        show i + 1 + left = i + (left + 1) by omega]
    | transportError m =>
      dsimp only
      rw [if_neg (Nat.succ_ne_zero left), hrec,
        show i + 1 + left = i + (left + 1) by omega]

/-- Claim C7 (amended): the Anthropic request helper retries transport
failures and error envelopes and, when every one of its retries+1
allowed attempts fails, raises the fatal message determined by the last
attempt after exactly retries+1 attempts (first conjunct); it never
performs more than retries+1 attempts on any outcome sequence (second
conjunct).  The Replicate request helper, by contrast, performs exactly
one attempt on every outcome sequence (third conjunct) and propagates a
transport failure immediately instead of retrying (fourth conjunct). -/
theorem c7_amended (outcome o2 : Nat → Attempt) (retries : Nat)
    (hfail : ∀ j, j ≤ retries → (outcome j).isFailure = true) :
    make_anthropic_request outcome retries =
      (.error (anthropicFatal (outcome retries)), retries + 1) ∧
    (∀ o3 : Nat → Attempt, (make_anthropic_request o3 retries).2 ≤ retries + 1) ∧
    (make_replicate_request o2).2 = 1 ∧
    (∀ m, o2 0 = .transportError m →
      make_replicate_request o2 = (.error ("requests.RequestException: " ++ m), 1)) := by
  refine ⟨?_, ?_, ?_, ?_⟩
  · unfold make_anthropic_request
    have := anthropic_loop_all_fail outcome retries 0 (by simpa using hfail)
    simpa using this
  · intro o3
    exact anthropic_loop_attempts_le o3 (retries + 1) 0
  · unfold make_replicate_request
    cases o2 0 <;> rfl
  · intro m hm
    unfold make_replicate_request
    rw [hm]

/-- Witness for c7_amended: every attempt fails with a transport error;
the Anthropic helper raises the transport fatal message after three
attempts (default retries = 2), and the Replicate helper raises after
its single attempt. -/
theorem c7_amended_witness :
    make_anthropic_request (fun _ => Attempt.transportError "boom") 2 =
      (.error "Failed to communicate with Anthropic API: boom", 3) ∧
    make_replicate_request (fun _ => Attempt.transportError "x") =
      (.error "requests.RequestException: x", 1) := by
  have h := c7_amended (fun _ => Attempt.transportError "boom")
    (fun _ => Attempt.transportError "x") 2 (fun j _ => rfl)
  exact ⟨h.1.trans rfl, h.2.2.2 "x" rfl⟩

/-- Claim C8: the half-second buffer applied during clip
materialization.  For a clip window with nonnegative start and end
beyond start, the cut request built for it has buffered start
max(0, start - 1/2) and buffered end stop + 1/2; the buffered start is
nonnegative, the buffer never shrinks the clip, and the request is the
one emitted by create_clips for that window. -/
theorem c8_buffer_never_shrinks (w : ClipWindow) (hs : 0 ≤ w.start) (_he : w.start < w.stop) :
    (clip_cut w).startTime = max 0 (w.start - 1/2) ∧
    (clip_cut w).endTime = w.stop + 1/2 ∧
    0 ≤ (clip_cut w).startTime ∧
    w.stop - w.start ≤ (clip_cut w).endTime - (clip_cut w).startTime ∧
    (∀ l : List ClipWindow, w ∈ l → clip_cut w ∈ create_clips l) := by
  refine ⟨rfl, rfl, le_max_left 0 _, ?_, fun l hl => List.mem_map_of_mem clip_cut hl⟩
  show w.stop - w.start ≤ (w.stop + 1/2) - max 0 (w.start - 1/2)
  rcases max_cases 0 (w.start - 1/2) with ⟨hmax, _⟩ | ⟨hmax, _⟩ <;> rw [hmax] <;> linarith

/-- Witness for c8_buffer_never_shrinks at the window
(Intro, 1/5, 3): the lower clamp fires (1/5 - 1/2 is negative) and the
clip still does not shrink. -/
theorem c8_buffer_witness :
    0 ≤ (clip_cut ⟨"Intro", 1/5, 3⟩).startTime ∧
    (3 : ℚ) - 1/5 ≤ (clip_cut ⟨"Intro", 1/5, 3⟩).endTime - (clip_cut ⟨"Intro", 1/5, 3⟩).startTime :=
  ⟨(c8_buffer_never_shrinks ⟨"Intro", 1/5, 3⟩ (by norm_num) (by norm_num)).2.2.1,
   (c8_buffer_never_shrinks ⟨"Intro", 1/5, 3⟩ (by norm_num) (by norm_num)).2.2.2.1⟩

/-- Claim C9, counterexample: the title with punctuation followed by a
space keeps the space through the filter (only the bang is stripped and
there is no lstrip), so the derived name begins with an underscore
artifact even though the title contains no underscore. -/
theorem c9_counterexample :
    safe_title "! hello" = "_hello" ∧
    "_hello".data.head? = some '_' ∧
    "! hello".data.contains '_' = false :=
  ⟨rfl, rfl, rfl⟩

/-- Claim C9 (amended): the derived name always consists of
alphanumerics and underscores only (first conjunct), and trailing
underscore artifacts cannot arise from stripped characters — a trailing
underscore in the name only occurs when the title itself contains an
underscore, because rstrip removes trailing spaces before the
space-to-underscore replacement (second conjunct).  Leading underscore
artifacts are possible (see the counterexample): there is no lstrip. -/
theorem c9_safe_title_amended (t : String) :
    ((safe_title t).data.all (fun c => pyIsAlnum c || c = '_') = true) ∧
    ((safe_title t).data.getLast? = some '_' → '_' ∈ t.data) := by
  constructor
  · rw [List.all_eq_true]
    intro c hc
    have hdata : (safe_title t).data =
        (pyRstrip (title_filter t)).map (fun c => if c = ' ' then '_' else c) := rfl
    rw [hdata] at hc
    obtain ⟨c2, hc2, hfc⟩ := List.mem_map.1 hc
    have hmem : c2 ∈ title_filter t := mem_of_mem_pyRstrip hc2
    have hprop := (List.mem_filter.1 hmem).2
    by_cases hsp : c2 = ' '
    · rw [← hfc, if_pos hsp]
      simp
    · rw [← hfc, if_neg hsp]
      simp only [Bool.or_eq_true, decide_eq_true_eq] at hprop ⊢
      rcases hprop with (h1 | h2) | h3
      · exact Or.inl h1
      · exact absurd h2 hsp
      · exact Or.inr h3
  · intro h
    have hdata : (safe_title t).data =
        (pyRstrip (title_filter t)).map (fun c => if c = ' ' then '_' else c) := rfl
    rw [hdata, List.getLast?_map] at h
    obtain ⟨c2, hc2, hfc⟩ := Option.map_eq_some'.1 h
    have hnotsp : pyIsSpace c2 = false := pyRstrip_getLast?_not_space hc2
    have hc2ne : c2 ≠ ' ' := by
      intro hsp
      rw [hsp] at hnotsp
      exact absurd hnotsp (by simp [pyIsSpace])
    rw [if_neg hc2ne] at hfc
    subst hfc
    have hmem : '_' ∈ pyRstrip (title_filter t) := List.mem_of_mem_getLast? hc2
    have hmem2 : '_' ∈ title_filter t := by
      unfold pyRstrip at hmem
      rw [List.mem_reverse] at hmem
      exact List.mem_reverse.1 (mem_of_mem_dropWhile pyIsSpace hmem)
    exact (List.mem_filter.1 hmem2).1

/-- Witness applying c9_safe_title_amended at a concrete title whose
trailing underscore comes from the title itself. -/
theorem c9_amended_witness :
    ((safe_title "a b_").data.all (fun c => pyIsAlnum c || c = '_') = true) ∧
    ('_' ∈ "a b_".data) :=
  ⟨(c9_safe_title_amended "a b_").1, (c9_safe_title_amended "a b_").2 rfl⟩

/-- Claim C10: the status store.  Before any update the query returns
exactly the idle triple; a single update replaces the whole cell
independently of its previous contents; and after any update sequence
the query returns the complete last-written triple. -/
theorem c10_status_store :
    get_status none = { status := "idle", progress := 0, message := "" } ∧
    (∀ old s p m, get_status (update_processing_status old s p m) =
      { status := s, progress := p, message := m }) ∧
    (∀ init ups s p m,
      get_status (apply_updates init (ups ++ [(s, p, m)])) =
        { status := s, progress := p, message := m }) := by
  refine ⟨rfl, fun _ _ _ _ => rfl, fun init ups s p m => ?_⟩
  unfold apply_updates
  rw [List.foldl_append]
  rfl

end AVSum
